import Mathlib

/-!
# Verification of the BRC-100 encrypted-messaging CLI

A shallow embedding of `src/messaging.ts`: the CLI commands (`init`,
`identity`, `encrypt`, `decrypt`, `demo`) are modelled as pure functions
from an explicit file-system state and their arguments to a run result
(final state, exit code, structured output, and the list of wallet
cryptographic operations invoked).  The external wallet library
(`@bsv/sdk`, `@bsv/wallet-toolbox`) is not part of this repository; its
four capability operations (encrypt / decrypt / sign / verify) and the
ECDH-style key derivation behind them are modelled from the spec's
external-collaborator contract, with a concrete executable
Diffie-Hellman group and an authenticated stream cipher so that every
definition evaluates on concrete inputs.
-/

namespace Messaging

/-! ## Cryptographic model

Modelled from the spec: the external wallet library's key derivation
(BRC-42/43) and AEAD cipher are not in this repository.  The spec
describes them as ECDH key agreement - "two parties produce the *same*
derived symmetric key if and only if they use the same (security level,
protocol name, key identifier) triple and each other's correct public
keys" - followed by authenticated symmetric encryption and a signature
derived from the same context.  We realise this with a concrete
Diffie-Hellman group (exponentiation modulo a fixed prime) and a
keystream cipher with an appended authentication tag. -/

/-- Modelled from the spec: the prime modulus of the Diffie-Hellman group. -/
def dhPrime : Nat := 2003

/-- Modelled from the spec: the group generator. -/
def dhGen : Nat := 5

/-- Modelled from the spec: derive the public identity key from a private
scalar (`PrivateKey.fromHex(..).toPublicKey()` in the source). -/
def toPublicKey (priv : Nat) : Nat := dhGen ^ priv % dhPrime

/-- Modelled from the spec: the ECDH shared secret computed from one party's
private scalar and the other party's public key. -/
def sharedSecret (priv pub : Nat) : Nat := pub ^ priv % dhPrime

/-- `WalletProtocol` from `@bsv/sdk`: a security level paired with a
protocol name.  `src/messaging.ts` line 9 uses `[2, "encrypted messaging"]`. -/
structure WalletProtocol where
  securityLevel : Nat
  protocolName : String
deriving DecidableEq

/-- `MESSAGING_PROTOCOL` (`src/messaging.ts` line 9): security level 2
(per-counterparty per-application) and protocol name `encrypted messaging`. -/
def MESSAGING_PROTOCOL : WalletProtocol := ⟨2, "encrypted messaging"⟩

/-- `DEFAULT_KEY_ID` (`src/messaging.ts` line 12). -/
def DEFAULT_KEY_ID : String := "default"

/-- A derivation context: the protocol (security level + name) and the key
identifier.  The counterparty key is passed separately, as in the wallet
calls of the source. -/
structure Ctx where
  protocolID : WalletProtocol
  keyID : String
deriving DecidableEq

/-- A simple executable string hash used to mix the derivation context into
the derived key. -/
def strHash (s : String) : Nat :=
  s.toList.foldl (fun a c => (a * 31 + c.toNat) % 65536) 7

/-- Hash of a derivation context. -/
def ctxHash (c : Ctx) : Nat :=
  (c.protocolID.securityLevel * 65537 + strHash c.protocolID.protocolName * 97
    + strHash c.keyID) % 65536

/-- Modelled from the spec: the symmetric key derived from one party's
private scalar, the counterparty's public key, and the derivation context. -/
def derivedKey (priv pub : Nat) (c : Ctx) : Nat :=
  sharedSecret priv pub * 100003 + ctxHash c

/-- Keystream byte `i` under key `k`. -/
def keyStream (k i : Nat) : Nat := (k * (i + 1) + i * i) % 256

/-- Encrypt a byte list with the keystream, starting at position `i`. -/
def encBytes (k i : Nat) : List Nat → List Nat
  | [] => []
  | b :: bs => (b + keyStream k i) % 256 :: encBytes k (i + 1) bs

/-- Decrypt a byte list with the keystream, starting at position `i`. -/
def decBytes (k i : Nat) : List Nat → List Nat
  | [] => []
  | b :: bs => (b + (256 - keyStream k i)) % 256 :: decBytes k (i + 1) bs

/-- Authentication code of a byte list under key `k`. -/
def macOf (k : Nat) (data : List Nat) : Nat :=
  data.foldl (fun a b => (a * 257 + b) % 65536) (k % 65536)

/-- Modelled from the spec: authenticated encryption - keystream-encrypted
body followed by a two-byte authentication tag. -/
def aeadEncrypt (k : Nat) (pt : List Nat) : List Nat :=
  encBytes k 0 pt
    ++ [macOf k (encBytes k 0 pt) / 256, macOf k (encBytes k 0 pt) % 256]

/-- Modelled from the spec: authenticated decryption - checks the
authentication tag and fails (`none`) on mismatch. -/
def aeadDecrypt (k : Nat) (ct : List Nat) : Option (List Nat) :=
  if ct.length < 2 then none
  else if ct.drop (ct.length - 2)
      = [macOf k (ct.take (ct.length - 2)) / 256,
         macOf k (ct.take (ct.length - 2)) % 256] then
    some (decBytes k 0 (ct.take (ct.length - 2)))
  else none

/-- Modelled from the spec: a signature over `data` under a key derived from
the same context (distinct from the encryption keystream key). -/
def sigOf (k : Nat) (data : List Nat) : List Nat :=
  [macOf (k + 1) data / 256, macOf (k + 1) data % 256]

/-- Modelled from the spec: `wallet.encrypt` - derive the symmetric key from
the caller's private scalar, the counterparty public key and the context,
then encrypt. -/
def walletEncrypt (priv counterparty : Nat) (protocolID : WalletProtocol)
    (keyID : String) (plaintext : List Nat) : List Nat :=
  aeadEncrypt (derivedKey priv counterparty ⟨protocolID, keyID⟩) plaintext

/-- Modelled from the spec: `wallet.decrypt`. -/
def walletDecrypt (priv counterparty : Nat) (protocolID : WalletProtocol)
    (keyID : String) (ciphertext : List Nat) : Option (List Nat) :=
  aeadDecrypt (derivedKey priv counterparty ⟨protocolID, keyID⟩) ciphertext

/-- Modelled from the spec: `wallet.createSignature` - sign `data` under the
key derived from the same context. -/
def walletCreateSignature (priv counterparty : Nat) (protocolID : WalletProtocol)
    (keyID : String) (data : List Nat) : List Nat :=
  sigOf (derivedKey priv counterparty ⟨protocolID, keyID⟩) data

/-- Modelled from the spec: `wallet.verifySignature` - recompute the
signature under the receiver-side derived key and compare. -/
def walletVerifySignature (priv counterparty : Nat) (protocolID : WalletProtocol)
    (keyID : String) (data sig : List Nat) : Bool :=
  sig = sigOf (derivedKey priv counterparty ⟨protocolID, keyID⟩) data

/-! ## Base64 transport encoding

`src/messaging.ts` renders ciphertext and signature bytes with
`Buffer.from(bytes).toString("base64")` and decodes them with
`Buffer.from(str, "base64")`; we embed the standard base64 algorithm. -/

/-- The base64 alphabet. -/
def b64Alphabet : List Char :=
  "ABCDEFGHIJKLMNOPQRSTUVWXYZabcdefghijklmnopqrstuvwxyz0123456789+/".toList

/-- The base64 digit for a 6-bit value. -/
def b64Char (n : Nat) : Char := b64Alphabet.getD n 'A'

/-- Index of a base64 digit in the alphabet (64 when absent). -/
def b64Index (ch : Char) : Nat := b64Alphabet.indexOf ch

/-- Encode bytes in groups of three into base64 digits with `=` padding. -/
def b64EncodeChunks : List Nat → List Char
  | b1 :: b2 :: b3 :: rest =>
      let n := b1 % 256 * 65536 + b2 % 256 * 256 + b3 % 256
      b64Char (n / 262144) :: b64Char (n / 4096 % 64) :: b64Char (n / 64 % 64)
        :: b64Char (n % 64) :: b64EncodeChunks rest
  | [b1, b2] =>
      let n := b1 % 256 * 65536 + b2 % 256 * 256
      [b64Char (n / 262144), b64Char (n / 4096 % 64), b64Char (n / 64 % 64), '=']
  | [b1] =>
      let n := b1 % 256 * 65536
      [b64Char (n / 262144), b64Char (n / 4096 % 64), '=', '=']
  | [] => []

/-- `Buffer.from(bytes).toString("base64")`. -/
def base64Encode (bs : List Nat) : String := String.mk (b64EncodeChunks bs)

/-- Decode base64 digits in groups of four, honouring `=` padding. -/
def b64DecodeChunks : List Char → List Nat
  | c1 :: c2 :: c3 :: c4 :: rest =>
      if c4 = '=' then
        if c3 = '=' then
          [b64Index c1 * 4 + b64Index c2 / 16]
        else
          [b64Index c1 * 4 + b64Index c2 / 16,
           b64Index c2 % 16 * 16 + b64Index c3 / 4]
      else
        (b64Index c1 * 4 + b64Index c2 / 16)
          :: (b64Index c2 % 16 * 16 + b64Index c3 / 4)
          :: (b64Index c3 % 4 * 64 + b64Index c4)
          :: b64DecodeChunks rest
  | _ => []

/-- `Buffer.from(str, "base64")` as a byte list. -/
def base64Decode (s : String) : List Nat := b64DecodeChunks s.toList

/-! ## String/byte conversion (`Utils` from `@bsv/sdk`) -/

namespace Utils

/-- `Utils.toArray(message, "utf8")`: the message rendered as a byte list
(code points; the messages of interest are single-byte characters). -/
def toArray (s : String) : List Nat := s.toList.map Char.toNat

/-- `Utils.toUTF8(bytes)`: bytes rendered back as a string. -/
def toUTF8 (bs : List Nat) : String := String.mk (bs.map Char.ofNat)

end Utils

/-! ## Persistent state and run results

`src/messaging.ts` persists a key file `wallet-key.json` holding
`{ privateKeyHex, identityKey }` and lets the external wallet toolbox keep
an SQLite database `wallet.sqlite`.  Both are modelled in an explicit
`FileSystem` record.  Each command is a pure function from its arguments
and the file system to a `RunResult`: the resulting file system, the
process exit code, structured stdout/stderr output, and the list of
wallet cryptographic operations that were invoked. -/

/-- Content of `wallet-key.json` (`loadKey` / `saveKey`). -/
structure KeyFile where
  privateKeyHex : Nat
  identityKey : Nat
deriving DecidableEq

/-- The persisted local state: the key file (`none` when absent) and
whether the wallet SQLite database file exists/has been initialized. -/
structure FileSystem where
  keyFile : Option KeyFile
  walletDb : Bool
deriving DecidableEq

/-- The envelope emitted by `runEncrypt` (`src/messaging.ts` lines 134-139):
exactly four fields. -/
structure Envelope where
  sender : Nat
  keyID : String
  ciphertext : String
  signature : String
deriving DecidableEq

/-- Structured console output of the CLI. -/
inductive Output where
  | usage
  | usageEncrypt
  | usageDecrypt
  | noWallet
  | walletExists (identityKey : Nat)
  | walletCreated (identityKey : Nat)
  | identityKeyLine (k : Nat)
  | envelopeLine (e : Envelope)
  | signatureValid (b : Bool)
  | fromLine (sender : Nat)
  | messageLine (text : String)
  | demoTrace (valid : Bool) (decryptedText : String) (ok : Bool)
  | errorLine
deriving DecidableEq

/-- The four wallet capability operations. -/
inductive CryptoOp where
  | encrypt
  | decrypt
  | sign
  | verify
deriving DecidableEq

/-- Result of one CLI invocation. -/
structure RunResult where
  fs : FileSystem
  exitCode : Nat
  stdout : List Output
  stderr : List Output
  cryptoOps : List CryptoOp
deriving DecidableEq

/-- `loadKey` (`src/messaging.ts` lines 20-23): read `wallet-key.json`. -/
def loadKey (fs : FileSystem) : Option KeyFile := fs.keyFile

/-- `saveKey` (`src/messaging.ts` lines 25-30): write `wallet-key.json`. -/
def saveKey (privateKeyHex identityKey : Nat) (fs : FileSystem) : FileSystem :=
  { fs with keyFile := some ⟨privateKeyHex, identityKey⟩ }

/-- The in-memory wallet handle returned by `createWallet`. -/
structure Setup where
  rootKey : Nat
  identityKey : Nat
deriving DecidableEq

/-- `createWallet` (`src/messaging.ts` lines 34-53).  Modelled from the spec:
`Setup.createWalletSQLite` is the external wallet toolbox; it opens the
SQLite database at `DB_FILE`, creating and initializing it when absent (the
source comment at line 81 reads "Create the wallet to initialize the
database").  The handle carries the root private scalar and the identity
key derived from it. -/
def createWallet (rootKeyHex : Nat) (fs : FileSystem) : Setup × FileSystem :=
  (⟨rootKeyHex, toPublicKey rootKeyHex⟩, { fs with walletDb := true })

/-- `runInit` (`src/messaging.ts` lines 66-92).  `entropy` stands for the
32 random bytes from `crypto.randomBytes`. -/
def runInit (entropy : Nat) (fs : FileSystem) : RunResult :=
  match loadKey fs with
  | some existing => ⟨fs, 0, [.walletExists existing.identityKey], [], []⟩
  | none =>
      let privateKeyHex := entropy
      let identityKey := toPublicKey privateKeyHex
      let fs1 := (createWallet privateKeyHex fs).2
      let fs2 := saveKey privateKeyHex identityKey fs1
      ⟨fs2, 0, [.walletCreated identityKey], [], []⟩

/-- `runIdentity` (`src/messaging.ts` lines 94-101). -/
def runIdentity (fs : FileSystem) : RunResult :=
  match loadKey fs with
  | none => ⟨fs, 1, [], [.noWallet], []⟩
  | some stored => ⟨fs, 0, [.identityKeyLine stored.identityKey], [], []⟩

/-- `runEncrypt` (`src/messaging.ts` lines 103-143).  `recipientPubKey` is
`process.argv[3]` (already decoded to a key; `none` when absent), `message`
is `process.argv[4]` (`none` when absent), `keyIDArg` is `process.argv[5]`.
JavaScript truthiness: an absent argument and the empty string are both
falsy, so `!recipientPubKey || !message` rejects a missing recipient, a
missing message and the empty message alike, and `process.argv[5] ||
DEFAULT_KEY_ID` replaces an absent or empty keyID by the default. -/
def resolveKeyID (keyIDArg : Option String) : String :=
  match keyIDArg with
  | some s => if s = "" then DEFAULT_KEY_ID else s
  | none => DEFAULT_KEY_ID

/-- The body of `runEncrypt`, continuing from `resolveKeyID` above. -/
def runEncrypt (recipientPubKey : Option Nat) (message : Option String)
    (keyIDArg : Option String) (fs : FileSystem) : RunResult :=
  let keyID := resolveKeyID keyIDArg
  match recipientPubKey, message with
  | none, _ => ⟨fs, 1, [], [.usageEncrypt], []⟩
  | some _, none => ⟨fs, 1, [], [.usageEncrypt], []⟩
  | some rpk, some msg =>
      if msg = "" then ⟨fs, 1, [], [.usageEncrypt], []⟩ else
      match loadKey fs with
      | none => ⟨fs, 1, [], [.noWallet], []⟩
      | some stored =>
          let sfs := createWallet stored.privateKeyHex fs
          let ciphertext := walletEncrypt sfs.1.rootKey rpk
            MESSAGING_PROTOCOL keyID (Utils.toArray msg)
          let signature := walletCreateSignature sfs.1.rootKey rpk
            MESSAGING_PROTOCOL keyID ciphertext
          let envelope : Envelope :=
            ⟨sfs.1.identityKey, keyID,
             base64Encode ciphertext, base64Encode signature⟩
          ⟨sfs.2, 0, [.envelopeLine envelope], [], [.encrypt, .sign]⟩

/-- `runDecrypt` (`src/messaging.ts` lines 145-187).  `envArg` is the parsed
envelope JSON from `process.argv[3]` (`none` when the argument is absent).
The source prints the verification result and then decrypts regardless of
it; when `wallet.decrypt` rejects, the top-level catch prints an error and
exits with code 1. -/
def runDecrypt (envArg : Option Envelope) (fs : FileSystem) : RunResult :=
  match envArg with
  | none => ⟨fs, 1, [], [.usageDecrypt], []⟩
  | some envelope =>
      match loadKey fs with
      | none => ⟨fs, 1, [], [.noWallet], []⟩
      | some stored =>
          let sfs := createWallet stored.privateKeyHex fs
          let ciphertextBytes := base64Decode envelope.ciphertext
          let signatureBytes := base64Decode envelope.signature
          let valid := walletVerifySignature sfs.1.rootKey envelope.sender
            MESSAGING_PROTOCOL envelope.keyID ciphertextBytes signatureBytes
          match walletDecrypt sfs.1.rootKey envelope.sender
              MESSAGING_PROTOCOL envelope.keyID ciphertextBytes with
          | some plaintext =>
              ⟨sfs.2, 0,
               [.signatureValid valid, .fromLine envelope.sender,
                .messageLine (Utils.toUTF8 plaintext)],
               [], [.verify, .decrypt]⟩
          | none =>
              ⟨sfs.2, 1, [.signatureValid valid], [.errorLine],
               [.verify, .decrypt]⟩

/-- The fixed demo plaintext (`src/messaging.ts` line 203). -/
def demoPlaintext : String := "Hello Bob, this is a secret message from Alice!"

/-- The ciphertext Alice produces in the demo (`src/messaging.ts`
lines 208-213): her wallet's `encrypt` addressed to Bob's identity key. -/
def demoEncrypted (aliceKey bobKey : Nat) : List Nat :=
  walletEncrypt aliceKey (toPublicKey bobKey) MESSAGING_PROTOCOL
    DEFAULT_KEY_ID (Utils.toArray demoPlaintext)

/-- Alice's signature over the demo ciphertext (lines 221-226). -/
def demoSigned (aliceKey bobKey : Nat) : List Nat :=
  walletCreateSignature aliceKey (toPublicKey bobKey) MESSAGING_PROTOCOL
    DEFAULT_KEY_ID (demoEncrypted aliceKey bobKey)

/-- Bob's verification of Alice's signature (lines 234-241). -/
def demoValid (aliceKey bobKey : Nat) : Bool :=
  walletVerifySignature bobKey (toPublicKey aliceKey) MESSAGING_PROTOCOL
    DEFAULT_KEY_ID (demoEncrypted aliceKey bobKey)
    (demoSigned aliceKey bobKey)

/-- The tail of the demo after Bob's decryption (lines 252-262): compare the
decrypted text with the plaintext and exit 0 on a match, 1 otherwise; a
decryption rejection is caught at top level and exits with code 1. -/
def demoOutcome (valid : Bool) (decrypted : Option (List Nat))
    (fsOut : FileSystem) : RunResult :=
  match decrypted with
  | some bytes =>
      ⟨fsOut, if Utils.toUTF8 bytes = demoPlaintext then 0 else 1,
       [.demoTrace valid (Utils.toUTF8 bytes)
          (Utils.toUTF8 bytes == demoPlaintext)], [],
       [.encrypt, .sign, .verify, .decrypt]⟩
  | none =>
      ⟨fsOut, 1, [], [.errorLine], [.encrypt, .sign, .verify, .decrypt]⟩

/-- `runDemo` (`src/messaging.ts` lines 189-263).  `aliceEntropy` and
`bobEntropy` stand for the two `PrivateKey.fromRandom()` draws; both
wallets' identity keys are derived from them by `createWallet`. -/
def runDemo (aliceEntropy bobEntropy : Nat) (fs : FileSystem) : RunResult :=
  demoOutcome (demoValid aliceEntropy bobEntropy)
    (walletDecrypt bobEntropy (toPublicKey aliceEntropy) MESSAGING_PROTOCOL
      DEFAULT_KEY_ID (demoEncrypted aliceEntropy bobEntropy))
    ((createWallet bobEntropy ((createWallet aliceEntropy fs).2)).2)

/-- The non-command arguments of a CLI invocation, pre-parsed per command. -/
structure Args where
  recipientPubKey : Option Nat
  message : Option String
  keyIDArg : Option String
  envArg : Option Envelope
deriving DecidableEq

/-- The dispatcher (`src/messaging.ts` lines 277-300): match on
`process.argv[2]`; an absent or unrecognized command prints the usage text
and exits with code 0.  `entropy`/`aliceEntropy`/`bobEntropy` stand for the
randomness drawn by `init` and `demo`. -/
def mainDispatch (command : Option String) (args : Args)
    (entropy aliceEntropy bobEntropy : Nat) (fs : FileSystem) : RunResult :=
  if command = some "init" then runInit entropy fs
  else if command = some "identity" then runIdentity fs
  else if command = some "encrypt" then
    runEncrypt args.recipientPubKey args.message args.keyIDArg fs
  else if command = some "decrypt" then runDecrypt args.envArg fs
  else if command = some "demo" then runDemo aliceEntropy bobEntropy fs
  else ⟨fs, 0, [.usage], [], []⟩

/-- The recognized subcommands. -/
def recognizedCommands : List String :=
  ["init", "identity", "encrypt", "decrypt", "demo"]

/-- The identity key reported by an `init` run (from either the
"Wallet already exists" or the "Wallet created" message). -/
def initReported (r : RunResult) : Option Nat :=
  match r.stdout with
  | [Output.walletExists k] => some k
  | [Output.walletCreated k] => some k
  | _ => none

/-! ## Byte-level model of the key-file write

`saveKey` writes `wallet-key.json` with a single
`fs.writeFileSync(KEY_FILE, JSON.stringify(...))` call directly to the
final path - there is no temporary file and no rename.  To reason about
crash states we model the write at the byte level. -/

/-- The JSON text `saveKey` writes (keys rendered in decimal in the model;
`\x7b`/`\x7d` are the braces of the JSON object). -/
def saveKeyContent (privateKeyHex identityKey : Nat) : String :=
  "\x7b \"privateKeyHex\": " ++ toString privateKeyHex
    ++ ", \"identityKey\": " ++ toString identityKey ++ " \x7d"

/-- Modelled from Node `fs` semantics: `fs.writeFileSync(path, data)` opens
the target with `O_TRUNC` and then writes the data; the on-disk states the
file passes through are the previous content followed by every prefix of
the new content (the empty prefix right after truncation).  A crash can
leave the file in any of these states. -/
def writeFileSyncStates (old : Option String) (content : String) :
    List (Option String) :=
  old :: (List.range (content.length + 1)).map (fun i => some (content.take i))

/-! ## Key-agreement symmetry and round-trip lemmas -/

theorem sharedSecret_symm (a b : Nat) :
    sharedSecret a (toPublicKey b) = sharedSecret b (toPublicKey a) := by
  unfold sharedSecret toPublicKey
  rw [← Nat.pow_mod, ← Nat.pow_mod, ← pow_mul, ← pow_mul, Nat.mul_comm]

theorem derivedKey_symm (a b : Nat) (c : Ctx) :
    derivedKey a (toPublicKey b) c = derivedKey b (toPublicKey a) c := by
  unfold derivedKey
  rw [sharedSecret_symm]

theorem decBytes_encBytes (k : Nat) (pt : List Nat) :
    ∀ i, (∀ b ∈ pt, b < 256) → decBytes k i (encBytes k i pt) = pt := by
  induction pt with
  | nil => intro i _; rfl
  | cons b bs ih =>
      intro i h
      have hb : b < 256 := h b (List.mem_cons_self b bs)
      have hs : keyStream k i < 256 := by
        unfold keyStream; exact Nat.mod_lt _ (by omega)
      simp only [encBytes, decBytes]
      rw [ih (i + 1) (fun x hx => h x (List.mem_cons_of_mem b hx))]
      congr 1
      omega

theorem aeadDecrypt_append_tag (k : Nat) (body : List Nat) :
    aeadDecrypt k (body ++ [macOf k body / 256, macOf k body % 256])
      = some (decBytes k 0 body) := by
  unfold aeadDecrypt
  have hlen : (body ++ [macOf k body / 256, macOf k body % 256]).length
      = body.length + 2 := by simp
  rw [hlen, Nat.add_sub_cancel, List.take_left, List.drop_left]
  simp

theorem aeadDecrypt_aeadEncrypt (k : Nat) (pt : List Nat)
    (h : ∀ b ∈ pt, b < 256) : aeadDecrypt k (aeadEncrypt k pt) = some pt := by
  unfold aeadEncrypt
  rw [aeadDecrypt_append_tag, decBytes_encBytes k pt 0 h]

theorem walletDecrypt_walletEncrypt (privS privR : Nat) (proto : WalletProtocol)
    (keyID : String) (pt : List Nat) (h : ∀ b ∈ pt, b < 256) :
    walletDecrypt privR (toPublicKey privS) proto keyID
      (walletEncrypt privS (toPublicKey privR) proto keyID pt) = some pt := by
  unfold walletDecrypt walletEncrypt
  rw [derivedKey_symm privR privS]
  exact aeadDecrypt_aeadEncrypt _ pt h

theorem walletVerify_walletSign (privS privR : Nat) (proto : WalletProtocol)
    (keyID : String) (data : List Nat) :
    walletVerifySignature privR (toPublicKey privS) proto keyID data
      (walletCreateSignature privS (toPublicKey privR) proto keyID data)
      = true := by
  unfold walletVerifySignature walletCreateSignature
  rw [derivedKey_symm privR privS]
  simp

theorem demoPlaintext_bytes_lt :
    ∀ b ∈ Utils.toArray demoPlaintext, b < 256 := by decide

theorem toUTF8_toArray_demo :
    Utils.toUTF8 (Utils.toArray demoPlaintext) = demoPlaintext := by decide

/-! ## Claims -/

/-- C3: the init operation is idempotent.  When an identity already exists
in the Key Store, `runInit` reports the existing identity key and changes
nothing (regardless of the fresh entropy draw); and two successive `runInit`
calls on the same Key Store report the same identity key, the second one
leaving the persisted key file (private scalar included) untouched. -/
theorem C3_init_idempotent :
    (∀ (fs : FileSystem) (kf : KeyFile) (e : Nat), fs.keyFile = some kf →
      runInit e fs = ⟨fs, 0, [.walletExists kf.identityKey], [], []⟩)
    ∧ ∀ (e1 e2 : Nat) (fs : FileSystem),
        (runInit e2 (runInit e1 fs).fs).fs = (runInit e1 fs).fs
        ∧ initReported (runInit e2 (runInit e1 fs).fs)
            = initReported (runInit e1 fs) := by
  constructor
  · intro fs kf e h
    simp [runInit, loadKey, h]
  · intro e1 e2 fs
    cases hk : fs.keyFile with
    | none =>
        simp [runInit, loadKey, saveKey, createWallet, hk, initReported]
    | some kf =>
        simp [runInit, loadKey, hk, initReported]

/-- Witness for C3 at a concrete Key Store that already holds an identity. -/
theorem C3_witness :
    runInit 5 ⟨some ⟨2, toPublicKey 2⟩, true⟩
      = ⟨⟨some ⟨2, toPublicKey 2⟩, true⟩, 0,
         [.walletExists (toPublicKey 2)], [], []⟩ :=
  C3_init_idempotent.1 ⟨some ⟨2, toPublicKey 2⟩, true⟩ ⟨2, toPublicKey 2⟩ 5 rfl

/-- C8: the encrypt operation rejects a zero-length plaintext: for an empty
message it exits with code 1, prints the usage error, emits no envelope, and
performs no cryptographic operation or state change. -/
theorem C8_empty_plaintext_rejected (rpk : Option Nat)
    (keyIDArg : Option String) (fs : FileSystem) :
    runEncrypt rpk (some "") keyIDArg fs = ⟨fs, 1, [], [.usageEncrypt], []⟩ := by
  cases rpk with
  | none => simp [runEncrypt]
  | some r => simp [runEncrypt]

/-- C9: with no identity initialized (`loadKey` returns nothing), the
`identity`, `encrypt` and `decrypt` commands all exit with code 1, invoke no
wallet cryptographic operation, and leave the state unchanged. -/
theorem C9_uninitialized_fails (fs : FileSystem) (hkf : fs.keyFile = none) :
    ((runIdentity fs).exitCode = 1 ∧ (runIdentity fs).cryptoOps = []
      ∧ (runIdentity fs).fs = fs)
    ∧ (∀ (r : Option Nat) (m k : Option String),
        (runEncrypt r m k fs).exitCode = 1
        ∧ (runEncrypt r m k fs).cryptoOps = []
        ∧ (runEncrypt r m k fs).fs = fs)
    ∧ ∀ (e : Option Envelope),
        (runDecrypt e fs).exitCode = 1
        ∧ (runDecrypt e fs).cryptoOps = []
        ∧ (runDecrypt e fs).fs = fs := by
  refine ⟨?_, ?_, ?_⟩
  · simp [runIdentity, loadKey, hkf]
  · intro r m k
    cases r with
    | none => simp [runEncrypt]
    | some rv =>
        cases m with
        | none => simp [runEncrypt]
        | some mv =>
            by_cases hm : mv = ""
            · subst hm; simp [runEncrypt]
            · simp [runEncrypt, loadKey, hkf, hm]
  · intro e
    cases e with
    | none => simp [runDecrypt]
    | some env => simp [runDecrypt, loadKey, hkf]

/-- C10: an absent or unrecognized subcommand prints the usage text and
exits with code 0, leaving all persisted state untouched; and whenever a
dispatch produces exit code 1, the command was one of the recognized
subcommands. -/
theorem C10_dispatcher (command : Option String) (args : Args)
    (e a b : Nat) (fs : FileSystem)
    (h : ∀ c ∈ recognizedCommands, command ≠ some c) :
    mainDispatch command args e a b fs = ⟨fs, 0, [.usage], [], []⟩
    ∧ ∀ (command' : Option String) (args' : Args) (e' a' b' : Nat)
        (fs' : FileSystem),
        (mainDispatch command' args' e' a' b' fs').exitCode = 1 →
        ∃ c ∈ recognizedCommands, command' = some c := by
  constructor
  · have h1 := h "init" (by simp [recognizedCommands])
    have h2 := h "identity" (by simp [recognizedCommands])
    have h3 := h "encrypt" (by simp [recognizedCommands])
    have h4 := h "decrypt" (by simp [recognizedCommands])
    have h5 := h "demo" (by simp [recognizedCommands])
    simp [mainDispatch, h1, h2, h3, h4, h5]
  · intro command' args' e' a' b' fs' hexit
    by_cases h1 : command' = some "init"
    · exact ⟨"init", by simp [recognizedCommands], h1⟩
    by_cases h2 : command' = some "identity"
    · exact ⟨"identity", by simp [recognizedCommands], h2⟩
    by_cases h3 : command' = some "encrypt"
    · exact ⟨"encrypt", by simp [recognizedCommands], h3⟩
    by_cases h4 : command' = some "decrypt"
    · exact ⟨"decrypt", by simp [recognizedCommands], h4⟩
    by_cases h5 : command' = some "demo"
    · exact ⟨"demo", by simp [recognizedCommands], h5⟩
    simp [mainDispatch, h1, h2, h3, h4, h5] at hexit

/-- Witness for C10 at the concrete unrecognized command `status`. -/
theorem C10_witness :
    mainDispatch (some "status") ⟨none, none, none, none⟩ 1 2 3 ⟨none, false⟩
      = ⟨⟨none, false⟩, 0, [.usage], [], []⟩ :=
  (C10_dispatcher (some "status") ⟨none, none, none, none⟩ 1 2 3 ⟨none, false⟩
    (by decide)).1

/-- Witness for C9 on a concrete uninitialized Key Store. -/
theorem C9_witness :
    (runIdentity ⟨none, false⟩).exitCode = 1
    ∧ (runEncrypt (some 5) (some "Hi") none ⟨none, false⟩).exitCode = 1
    ∧ (runDecrypt (some ⟨5, "default", "", ""⟩) ⟨none, false⟩).exitCode = 1 :=
  ⟨(C9_uninitialized_fails ⟨none, false⟩ rfl).1.1,
   ((C9_uninitialized_fails ⟨none, false⟩ rfl).2.1 (some 5) (some "Hi") none).1,
   ((C9_uninitialized_fails ⟨none, false⟩ rfl).2.2 (some ⟨5, "default", "", ""⟩)).1⟩

/-- C5 counterexample: encrypting is not free of persisted side effects.
With an initialized key file but no wallet database present, one encrypt
invocation changes the persisted state (the wallet database file is
created/initialized by the external wallet setup that `runEncrypt` opens). -/
theorem C5_counterexample :
    (runEncrypt (some 5) (some "Hi") none
        ⟨some ⟨2, toPublicKey 2⟩, false⟩).fs
      ≠ ⟨some ⟨2, toPublicKey 2⟩, false⟩ := by decide

/-- C5 (amended): the envelope-building operation never writes the key file
- it only reads the Identity - and the only persisted state it can touch is
the wallet database file, which the wallet setup it opens
creates/initializes when absent. -/
theorem C5_encrypt_keyFile_frame (r : Option Nat) (m k : Option String)
    (fs : FileSystem) :
    (runEncrypt r m k fs).fs.keyFile = fs.keyFile
    ∧ ((runEncrypt r m k fs).fs = fs
        ∨ (runEncrypt r m k fs).fs = { fs with walletDb := true }) := by
  cases r with
  | none => exact ⟨rfl, Or.inl rfl⟩
  | some rv =>
      cases m with
      | none => exact ⟨rfl, Or.inl rfl⟩
      | some mv =>
          by_cases hm : mv = ""
          · subst hm; exact ⟨rfl, Or.inl rfl⟩
          · cases hk : fs.keyFile with
            | none =>
                refine ⟨?_, Or.inl ?_⟩ <;>
                  simp [runEncrypt, loadKey, hk, hm]
            | some stored =>
                refine ⟨?_, Or.inr ?_⟩ <;>
                  simp [runEncrypt, loadKey, createWallet, hk, hm]

/-- C6: every envelope emitted by the encrypt operation has exactly the four
fields of the `Envelope` record: `sender` is the sender's own identity key,
`keyID` is the key identifier used for derivation, `ciphertext` is the
base64 encoding of the ciphertext bytes, and `signature` is the base64
encoding of the signature bytes over that ciphertext. -/
theorem C6_envelope_shape (rpk : Nat) (msg : String) (keyIDArg : Option String)
    (fs : FileSystem) (stored : KeyFile)
    (hkf : fs.keyFile = some stored) (hmsg : msg ≠ "")
    (hid : stored.identityKey = toPublicKey stored.privateKeyHex) :
    (runEncrypt (some rpk) (some msg) keyIDArg fs).stdout
      = [Output.envelopeLine
          ⟨stored.identityKey,
           resolveKeyID keyIDArg,
           base64Encode (walletEncrypt stored.privateKeyHex rpk
             MESSAGING_PROTOCOL (resolveKeyID keyIDArg) (Utils.toArray msg)),
           base64Encode (walletCreateSignature stored.privateKeyHex rpk
             MESSAGING_PROTOCOL (resolveKeyID keyIDArg)
             (walletEncrypt stored.privateKeyHex rpk MESSAGING_PROTOCOL
               (resolveKeyID keyIDArg) (Utils.toArray msg)))⟩] := by
  simp [runEncrypt, loadKey, createWallet, hkf, hmsg, hid]

/-- Witness for C6 at a concrete identity, recipient and message. -/
theorem C6_witness :
    (runEncrypt (some 5) (some "Hi") none
        ⟨some ⟨2, toPublicKey 2⟩, true⟩).stdout
      = [Output.envelopeLine
          ⟨toPublicKey 2,
           resolveKeyID none,
           base64Encode (walletEncrypt 2 5 MESSAGING_PROTOCOL
             (resolveKeyID none) (Utils.toArray "Hi")),
           base64Encode (walletCreateSignature 2 5 MESSAGING_PROTOCOL
             (resolveKeyID none)
             (walletEncrypt 2 5 MESSAGING_PROTOCOL (resolveKeyID none)
               (Utils.toArray "Hi")))⟩] :=
  C6_envelope_shape 5 "Hi" none ⟨some ⟨2, toPublicKey 2⟩, true⟩
    ⟨2, toPublicKey 2⟩ rfl (by decide) rfl

/-- C7: both sides derive under security level 2 and protocol name
`encrypted messaging`; the signature is computed over the ciphertext under
that same context; an omitted key identifier defaults to the fixed
`DEFAULT_KEY_ID = "default"`, which is the identifier recorded in the
envelope; and the receiver verifies under the same protocol with the
envelope's key identifier. -/
theorem C7_derivation_context :
    MESSAGING_PROTOCOL = ⟨2, "encrypted messaging"⟩
    ∧ DEFAULT_KEY_ID = "default"
    ∧ resolveKeyID none = DEFAULT_KEY_ID
    ∧ (∀ (rpk : Nat) (msg : String) (fs : FileSystem) (stored : KeyFile),
        fs.keyFile = some stored → msg ≠ "" →
        (runEncrypt (some rpk) (some msg) none fs).stdout
          = [Output.envelopeLine
              ⟨toPublicKey stored.privateKeyHex, DEFAULT_KEY_ID,
               base64Encode (walletEncrypt stored.privateKeyHex rpk
                 MESSAGING_PROTOCOL DEFAULT_KEY_ID (Utils.toArray msg)),
               base64Encode (walletCreateSignature stored.privateKeyHex rpk
                 MESSAGING_PROTOCOL DEFAULT_KEY_ID
                 (walletEncrypt stored.privateKeyHex rpk MESSAGING_PROTOCOL
                   DEFAULT_KEY_ID (Utils.toArray msg)))⟩])
    ∧ ∀ (env : Envelope) (fs : FileSystem) (stored : KeyFile),
        fs.keyFile = some stored →
        Output.signatureValid
            (walletVerifySignature stored.privateKeyHex env.sender
              MESSAGING_PROTOCOL env.keyID (base64Decode env.ciphertext)
              (base64Decode env.signature))
          ∈ (runDecrypt (some env) fs).stdout := by
  refine ⟨rfl, rfl, rfl, ?_, ?_⟩
  · intro rpk msg fs stored hkf hmsg
    simp [runEncrypt, loadKey, createWallet, hkf, hmsg, resolveKeyID]
  · intro env fs stored hkf
    cases hd : walletDecrypt stored.privateKeyHex env.sender
        MESSAGING_PROTOCOL env.keyID (base64Decode env.ciphertext) with
    | none => simp [runDecrypt, loadKey, createWallet, hkf, hd]
    | some pt => simp [runDecrypt, loadKey, createWallet, hkf, hd]

/-- Witness for C7 at a concrete sender, receiver and envelope. -/
theorem C7_witness :
    (runEncrypt (some 5) (some "Hi") none
        ⟨some ⟨2, toPublicKey 2⟩, true⟩).stdout
      = [Output.envelopeLine
          ⟨toPublicKey 2, DEFAULT_KEY_ID,
           base64Encode (walletEncrypt 2 5 MESSAGING_PROTOCOL DEFAULT_KEY_ID
             (Utils.toArray "Hi")),
           base64Encode (walletCreateSignature 2 5 MESSAGING_PROTOCOL
             DEFAULT_KEY_ID
             (walletEncrypt 2 5 MESSAGING_PROTOCOL DEFAULT_KEY_ID
               (Utils.toArray "Hi")))⟩]
    ∧ Output.signatureValid
        (walletVerifySignature 2 7 MESSAGING_PROTOCOL "k"
          (base64Decode "AAAA") (base64Decode "AAAA"))
      ∈ (runDecrypt (some ⟨7, "k", "AAAA", "AAAA"⟩)
          ⟨some ⟨2, toPublicKey 2⟩, true⟩).stdout :=
  ⟨C7_derivation_context.2.2.2.1 5 "Hi" ⟨some ⟨2, toPublicKey 2⟩, true⟩
      ⟨2, toPublicKey 2⟩ rfl (by decide),
   C7_derivation_context.2.2.2.2 ⟨7, "k", "AAAA", "AAAA"⟩
      ⟨some ⟨2, toPublicKey 2⟩, true⟩ ⟨2, toPublicKey 2⟩ rfl⟩

/-- C2: for all sender/receiver identities, every non-empty byte-bounded
plaintext and every keyID, encrypting and signing on the sender side and
then verifying and decrypting on the receiver side (receiver using its own
private scalar and the sender's real public key, same keyID) recovers
exactly the original plaintext with the sender verified; and the demo
command exits with code 0 (its round trip always matches). -/
theorem C2_roundtrip (privS privR : Nat) (pt : List Nat) (keyID : String)
    (hne : pt ≠ []) (hbytes : ∀ b ∈ pt, b < 256)
    (aliceEntropy bobEntropy : Nat) (fs : FileSystem) :
    walletVerifySignature privR (toPublicKey privS) MESSAGING_PROTOCOL keyID
        (walletEncrypt privS (toPublicKey privR) MESSAGING_PROTOCOL keyID pt)
        (walletCreateSignature privS (toPublicKey privR) MESSAGING_PROTOCOL
          keyID
          (walletEncrypt privS (toPublicKey privR) MESSAGING_PROTOCOL keyID
            pt)) = true
    ∧ walletDecrypt privR (toPublicKey privS) MESSAGING_PROTOCOL keyID
        (walletEncrypt privS (toPublicKey privR) MESSAGING_PROTOCOL keyID pt)
        = some pt
    ∧ (runDemo aliceEntropy bobEntropy fs).exitCode = 0 := by
  refine ⟨walletVerify_walletSign privS privR MESSAGING_PROTOCOL keyID _,
    walletDecrypt_walletEncrypt privS privR MESSAGING_PROTOCOL keyID pt
      hbytes, ?_⟩
  unfold runDemo demoEncrypted
  rw [walletDecrypt_walletEncrypt aliceEntropy bobEntropy MESSAGING_PROTOCOL
    DEFAULT_KEY_ID (Utils.toArray demoPlaintext) demoPlaintext_bytes_lt]
  simp [demoOutcome, toUTF8_toArray_demo]

/-- Witness for C2 at concrete identities, plaintext and keyID. -/
theorem C2_witness :
    [65] ≠ ([] : List Nat)
    ∧ walletDecrypt 4 (toPublicKey 3) MESSAGING_PROTOCOL "k"
        (walletEncrypt 3 (toPublicKey 4) MESSAGING_PROTOCOL "k" [65])
        = some [65]
    ∧ (runDemo 1 2 ⟨none, false⟩).exitCode = 0 :=
  ⟨by decide,
   (C2_roundtrip 3 4 [65] "k" (by decide) (by decide) 1 2 ⟨none, false⟩).2.1,
   (C2_roundtrip 3 4 [65] "k" (by decide) (by decide) 1 2 ⟨none, false⟩).2.2⟩

/-- C1 counterexample: the receive/decrypt operation does not fail closed
on an invalid signature.  At this concrete envelope (valid ciphertext from
sender 7 to receiver 11 but a garbage signature) the signature does not
verify, yet `runDecrypt` still invokes decryption, prints the plaintext,
and exits with code 0. -/
theorem C1_counterexample :
    walletVerifySignature 11 (toPublicKey 7) MESSAGING_PROTOCOL "default"
        (base64Decode (base64Encode (walletEncrypt 7 (toPublicKey 11)
          MESSAGING_PROTOCOL "default" [72, 105])))
        (base64Decode (base64Encode [9, 9])) = false
    ∧ (runDecrypt
        (some ⟨toPublicKey 7, "default",
          base64Encode (walletEncrypt 7 (toPublicKey 11) MESSAGING_PROTOCOL
            "default" [72, 105]),
          base64Encode [9, 9]⟩)
        ⟨some ⟨11, toPublicKey 11⟩, true⟩).cryptoOps
      = [.verify, .decrypt]
    ∧ (runDecrypt
        (some ⟨toPublicKey 7, "default",
          base64Encode (walletEncrypt 7 (toPublicKey 11) MESSAGING_PROTOCOL
            "default" [72, 105]),
          base64Encode [9, 9]⟩)
        ⟨some ⟨11, toPublicKey 11⟩, true⟩).stdout
      = [.signatureValid false, .fromLine (toPublicKey 7),
         .messageLine "Hi"]
    ∧ (runDecrypt
        (some ⟨toPublicKey 7, "default",
          base64Encode (walletEncrypt 7 (toPublicKey 11) MESSAGING_PROTOCOL
            "default" [72, 105]),
          base64Encode [9, 9]⟩)
        ⟨some ⟨11, toPublicKey 11⟩, true⟩).exitCode = 0 := by decide

/-- C1 (amended): signature mismatch is not fatal.  For every received
envelope whose signature does not verify under the derivation context
{receiver private key, envelope's sender key, security level 2, protocol
"encrypted messaging", envelope's keyID}, the receive operation surfaces
the verification result (`false`) and still attempts decryption; whenever
decryption succeeds it returns the plaintext and exits with code 0. -/
theorem C1_decrypt_despite_invalid_signature (env : Envelope)
    (fs : FileSystem) (stored : KeyFile) (pt : List Nat)
    (hkf : fs.keyFile = some stored)
    (hdec : walletDecrypt stored.privateKeyHex env.sender MESSAGING_PROTOCOL
      env.keyID (base64Decode env.ciphertext) = some pt)
    (hver : walletVerifySignature stored.privateKeyHex env.sender
      MESSAGING_PROTOCOL env.keyID (base64Decode env.ciphertext)
      (base64Decode env.signature) = false) :
    (runDecrypt (some env) fs).stdout
      = [.signatureValid false, .fromLine env.sender,
         .messageLine (Utils.toUTF8 pt)]
    ∧ (runDecrypt (some env) fs).exitCode = 0
    ∧ CryptoOp.decrypt ∈ (runDecrypt (some env) fs).cryptoOps := by
  simp [runDecrypt, loadKey, createWallet, hkf, hdec, hver]

/-- Witness for C1's amended theorem at the concrete envelope with a
garbage signature. -/
theorem C1_witness :
    (runDecrypt
        (some ⟨toPublicKey 7, "default",
          base64Encode (walletEncrypt 7 (toPublicKey 11) MESSAGING_PROTOCOL
            "default" [72, 105]),
          base64Encode [9, 9]⟩)
        ⟨some ⟨11, toPublicKey 11⟩, true⟩).stdout
      = [.signatureValid false, .fromLine (toPublicKey 7),
         .messageLine (Utils.toUTF8 [72, 105])]
    ∧ (runDecrypt
        (some ⟨toPublicKey 7, "default",
          base64Encode (walletEncrypt 7 (toPublicKey 11) MESSAGING_PROTOCOL
            "default" [72, 105]),
          base64Encode [9, 9]⟩)
        ⟨some ⟨11, toPublicKey 11⟩, true⟩).exitCode = 0
    ∧ CryptoOp.decrypt ∈ (runDecrypt
        (some ⟨toPublicKey 7, "default",
          base64Encode (walletEncrypt 7 (toPublicKey 11) MESSAGING_PROTOCOL
            "default" [72, 105]),
          base64Encode [9, 9]⟩)
        ⟨some ⟨11, toPublicKey 11⟩, true⟩).cryptoOps :=
  C1_decrypt_despite_invalid_signature
    ⟨toPublicKey 7, "default",
      base64Encode (walletEncrypt 7 (toPublicKey 11) MESSAGING_PROTOCOL
        "default" [72, 105]),
      base64Encode [9, 9]⟩
    ⟨some ⟨11, toPublicKey 11⟩, true⟩ ⟨11, toPublicKey 11⟩ [72, 105]
    rfl (by decide) (by decide)

/-- C4 counterexample: key-file writes are not atomic.  `saveKey` writes
the JSON directly to the final path with `fs.writeFileSync`; starting from
an absent key file, the on-disk states passed through during the write
include a one-character prefix of the new content - a state that is neither
absent, nor the previous content, nor the complete new identity. -/
theorem C4_counterexample :
    some ((saveKeyContent 1 (toPublicKey 1)).take 1)
        ∈ writeFileSyncStates none (saveKeyContent 1 (toPublicKey 1))
    ∧ some ((saveKeyContent 1 (toPublicKey 1)).take 1)
        ≠ (none : Option String)
    ∧ some ((saveKeyContent 1 (toPublicKey 1)).take 1)
        ≠ some (saveKeyContent 1 (toPublicKey 1)) := by decide

/-- C4 (amended): `saveKey` performs a single direct write (no
write-temp-then-rename), so a crash during `init`'s write leaves the key
file either in its previous state or holding some prefix of the new JSON
content - possibly a half-written file. -/
theorem C4_write_states (old : Option String) (content : String)
    (st : Option String) (h : st ∈ writeFileSyncStates old content) :
    st = old ∨ ∃ i ≤ content.length, st = some (content.take i) := by
  rcases List.mem_cons.mp h with h0 | hmem
  · exact Or.inl h0
  · rcases List.mem_map.mp hmem with ⟨i, hi, hst⟩
    exact Or.inr ⟨i, by
      have := List.mem_range.mp hi
      omega, hst.symm⟩

/-- Witness for C4's amended theorem at a concrete crash state. -/
theorem C4_witness :
    some ((saveKeyContent 1 (toPublicKey 1)).take 1) = (none : Option String)
    ∨ ∃ i ≤ (saveKeyContent 1 (toPublicKey 1)).length,
        some ((saveKeyContent 1 (toPublicKey 1)).take 1)
          = some ((saveKeyContent 1 (toPublicKey 1)).take i) :=
  C4_write_states none (saveKeyContent 1 (toPublicKey 1))
    (some ((saveKeyContent 1 (toPublicKey 1)).take 1)) (by decide)

end Messaging
